import Mathlib

/-!
Shallow embedding of `sktime/regression/deep_learning/resnet.py`
(`ResNetRegressor`), a thin adapter that configures and trains a ResNet
time-series regressor on top of Keras/TensorFlow.

External collaborators (the Keras runtime, sklearn's `check_random_state`,
numpy arrays) are modelled symbolically: Keras calls become constructors of a
symbolic tensor/model datatype plus an explicit effect trace on a framework
state, numpy 3-d arrays become a shape-plus-lookup record, and Python object
identity of callback lists becomes a small address heap so that `deepcopy`
semantics are observable.
-/

set_option autoImplicit false

namespace ResNetReg

/-- Values that can sit in the `random_state` hyperparameter: Python `None`,
an integer seed, a numpy `RandomState` object, or anything else (invalid). -/
inductive RandomState where
  | pyNone
  | pyInt (i : Int)
  | npRandomState (id : Nat)
  | invalid (desc : String)
deriving DecidableEq

/-- sklearn.utils.check_random_state: accepts `None`, integers and numpy
`RandomState` instances; raises `ValueError` for anything else. -/
def check_random_state : RandomState → Except String Unit
  | .invalid d =>
      .error (d ++ " cannot be used to seed a numpy.random.RandomState instance")
  | _ => .ok ()

/-- A Keras callback object; `lambdaCallback` models `keras.callbacks.LambdaCallback()`,
the no-op callback used by the test parameters. -/
inductive Callback where
  | lambdaCallback
  | named (s : String)
deriving DecidableEq

/-- A Keras optimizer: either an `Adam` optimizer with a given learning rate,
or an arbitrary caller-supplied optimizer object (identified by an id). -/
inductive Optimizer where
  | adam (learning_rate : ℚ)
  | custom (id : Nat)
deriving DecidableEq

/-- Symbolic Keras tensors: an input placeholder of a given `(m, d)` shape,
the feature tensor produced by the ResNet topology provider, and the result
of applying a `Dense(units, activation, use_bias)` layer to a tensor. -/
inductive Tensor where
  | input (shape : Nat × Nat)
  | resnetFeatures (src : Tensor)
  | dense (units : Nat) (activation : String) (use_bias : Bool) (src : Tensor)
deriving DecidableEq

/-- Per-instance tensor shape, where the model determines one: an input
placeholder has its declared `(m, d)` shape, a dense layer has shape
`(units,)`; the shape of the topology's internal feature tensor is owned by
the external component and left undetermined here. -/
def Tensor.tensor_shape : Tensor → Option (List Nat)
  | .input s => some [s.1, s.2]
  | .dense u _ _ _ => some [u]
  | .resnetFeatures _ => Option.none

/-- The network-topology provider `ResNetNetwork`, instantiated by the adapter
with its own random seed. -/
structure ResNetNetwork where
  random_state : RandomState
deriving DecidableEq

/-- Modelled from the spec: `ResNetNetwork.build_network` lives in
`sktime/networks/resnet.py`, outside this fragment. Per the spec, the topology
provider, "given an input shape, returns an input placeholder and an output
feature tensor representing stacked residual blocks". -/
def ResNetNetwork.build_network (_net : ResNetNetwork) (input_shape : Nat × Nat) :
    Tensor × Tensor :=
  (Tensor.input input_shape, Tensor.resnetFeatures (Tensor.input input_shape))

/-- A compiled Keras model: the input placeholder, the output tensor, and the
loss/optimizer/metrics it was compiled with. -/
structure CompiledModel where
  inputs : Tensor
  outputs : Tensor
  loss : String
  optimizer : Optimizer
  metrics : List String
deriving DecidableEq

/-- Observable side effects on the Keras/TensorFlow runtime:
`tf.random.set_seed`, `model.compile`, `model.summary`, and `model.fit`
(recording the transposed data shape, number of targets, batch size, epoch
count, verbosity and the address of the callback list passed in). -/
inductive TfEffect where
  | setSeed (seed : RandomState)
  | compileModel (m : CompiledModel)
  | modelSummary
  | fitModel (x_shape : Nat × Nat × Nat) (n_train : Nat) (batch_size : Nat)
      (epochs : Nat) (verbose : Bool) (callbacks_addr : Option Nat)
deriving DecidableEq

/-- Process-wide framework state: the global RNG seed and the trace of
framework calls made so far. -/
structure TfState where
  globalSeed : RandomState
  effects : List TfEffect
deriving DecidableEq

/-- A heap of Python list objects holding callbacks, addressed by `Nat`;
models object identity so that `copy.deepcopy` is observable. -/
structure Heap where
  store : Nat → List Callback
  next : Nat

/-- Mutate the list object at `addr` (a caller writing through its own
reference). -/
def Heap.write (h : Heap) (addr : Nat) (v : List Callback) : Heap :=
  { h with store := fun i => if i = addr then v else h.store i }

/-- copy.deepcopy on an optional callback-list reference: `None` is returned
as is; a list object is copied into a fresh address. -/
def deepcopy : Option Nat → Heap → Option Nat × Heap
  | Option.none, h => (Option.none, h)
  | some a, h =>
      (some h.next,
       { store := fun i => if i = h.next then h.store a else h.store i,
         next := h.next + 1 })

/-- The per-fit training history, modelled as a record of the `model.fit`
call that produced it. -/
structure History where
  x_shape : Nat × Nat × Nat
  n_train : Nat
  batch_size : Nat
  epochs : Nat
  verbose : Bool
  callbacks_addr : Option Nat
deriving DecidableEq

/-- The `ResNetRegressor` adapter state: the hyperparameters stored verbatim
by `__init__`, plus the attributes set later (`history`, `_network`,
`optimizer_`, `model_`, `input_shape`, `callbacks_`). The `callbacks` field is
a reference into the callback heap (or `None`). -/
structure ResNetRegressor where
  n_epochs : Nat
  callbacks : Option Nat
  verbose : Bool
  loss : String
  metrics : Option (List String)
  batch_size : Nat
  random_state : RandomState
  activation : String
  use_bias : Bool
  optimizer : Option Optimizer
  history : Option History
  _network : ResNetNetwork
  optimizer_ : Option Optimizer
  model_ : Option CompiledModel
  input_shape : Option (Nat × Nat)
  callbacks_ : Option Nat

/-- `ResNetRegressor.__init__`: checks that the deep-learning dependency is
installed (raising otherwise), stores every hyperparameter verbatim, sets
`history = None`, and instantiates `ResNetNetwork` with the same random
seed. No model is built. -/
def ResNetRegressor.init (dl_installed : Bool)
    (n_epochs : Nat) (callbacks : Option Nat) (verbose : Bool) (loss : String)
    (metrics : Option (List String)) (batch_size : Nat)
    (random_state : RandomState) (activation : String) (use_bias : Bool)
    (optimizer : Option Optimizer) : Except String ResNetRegressor :=
  if dl_installed then
    .ok
      { n_epochs := n_epochs
        callbacks := callbacks
        verbose := verbose
        loss := loss
        metrics := metrics
        batch_size := batch_size
        random_state := random_state
        activation := activation
        use_bias := use_bias
        optimizer := optimizer
        history := Option.none
        _network := { random_state := random_state }
        optimizer_ := Option.none
        model_ := Option.none
        input_shape := Option.none
        callbacks_ := Option.none }
  else
    .error "tensorflow is required for deep learning functionality"

/-- Result of `build_model`: the adapter with `optimizer_` set, the compiled
model, and the updated framework state. -/
structure BuildResult where
  regressor : ResNetRegressor
  model : CompiledModel
  tf : TfState

/-- `ResNetRegressor.build_model(input_shape)`: seeds the global RNG with the
configured seed (`tf.random.set_seed`), resolves the optimizer
(`Adam(learning_rate=0.01) if self.optimizer is None else self.optimizer`),
resolves the metrics (`["mean_squared_error"] if self.metrics is None`),
obtains input/output tensors from the topology provider, appends a
`Dense(units=1, activation=self.activation, use_bias=self.use_bias)` output
layer, and compiles the model against the configured loss and the resolved
optimizer and metrics. -/
def ResNetRegressor.build_model (self : ResNetRegressor)
    (input_shape : Nat × Nat) (tf : TfState) : BuildResult :=
  let tf1 : TfState :=
    { globalSeed := self.random_state
      effects := tf.effects ++ [TfEffect.setSeed self.random_state] }
  let optimizer_ := self.optimizer.getD (Optimizer.adam (1 / 100))
  let metrics := self.metrics.getD ["mean_squared_error"]
  let net_out := self._network.build_network input_shape
  let output_layer := Tensor.dense 1 self.activation self.use_bias net_out.2
  let model : CompiledModel :=
    { inputs := net_out.1
      outputs := output_layer
      loss := self.loss
      optimizer := optimizer_
      metrics := metrics }
  { regressor := { self with optimizer_ := some optimizer_ }
    model := model
    tf := { tf1 with effects := tf1.effects ++ [TfEffect.compileModel model] } }

/-- A numpy 3-d array: shape `(dim1, dim2, dim3)` plus element lookup. -/
structure Arr3 where
  dim1 : Nat
  dim2 : Nat
  dim3 : Nat
  data : Nat → Nat → Nat → Int

/-- numpy's `X.transpose(0, 2, 1)`: swap the last two axes; entry
`(i, j, k)` of the result is entry `(i, k, j)` of `X`. -/
def np_transpose_021 (X : Arr3) : Arr3 :=
  { dim1 := X.dim1
    dim2 := X.dim3
    dim3 := X.dim2
    data := fun i j k => X.data i k j }

/-- Result of `_fit`: the returned adapter (`self`), the framework state and
the callback heap after the call. -/
structure FitResult where
  regressor : ResNetRegressor
  tf : TfState
  heap : Heap

/-- `ResNetRegressor._fit(X, y)`: transposes `X` with `transpose(0, 2, 1)`,
runs `check_random_state(self.random_state)` (propagating its `ValueError`),
records `self.input_shape = X.shape[1:]` of the transposed array, builds the
compiled model at that shape, prints a summary when verbose, deep-copies the
callback list into `self.callbacks_`, runs `model.fit` with the transposed
data, targets, batch size, epoch count, verbosity and copied callbacks,
stores the history, and returns `self`. -/
def ResNetRegressor._fit (self : ResNetRegressor) (X : Arr3) (y : List ℚ)
    (tf : TfState) (heap : Heap) : Except String FitResult :=
  let Xt := np_transpose_021 X
  match check_random_state self.random_state with
  | .error e => .error e
  | .ok _ =>
    let self1 := { self with input_shape := some (Xt.dim2, Xt.dim3) }
    let br := self1.build_model (Xt.dim2, Xt.dim3) tf
    let self2 := { br.regressor with model_ := some br.model }
    let tf2 :=
      if self2.verbose then
        { br.tf with effects := br.tf.effects ++ [TfEffect.modelSummary] }
      else br.tf
    let cp := deepcopy self2.callbacks heap
    let self3 := { self2 with callbacks_ := cp.1 }
    let hist : History :=
      { x_shape := (Xt.dim1, Xt.dim2, Xt.dim3)
        n_train := y.length
        batch_size := self3.batch_size
        epochs := self3.n_epochs
        verbose := self3.verbose
        callbacks_addr := cp.1 }
    let tf3 :=
      { tf2 with
          effects := tf2.effects ++
            [TfEffect.fitModel (Xt.dim1, Xt.dim2, Xt.dim3) y.length
              self3.batch_size self3.n_epochs self3.verbose cp.1] }
    .ok { regressor := { self3 with history := some hist }, tf := tf3, heap := cp.2 }

/-- One test-parameter record returned by `get_test_params`: the keys the
source's dict literals may set. -/
structure TestParams where
  n_epochs : Option Nat
  batch_size : Option Nat
  use_bias : Option Bool
  callbacks : Option (List Callback)
deriving DecidableEq

/-- `ResNetRegressor.get_test_params`: two literal records, plus a third with
a `LambdaCallback` when the optional `keras` dependency is available. -/
def get_test_params (keras_available : Bool) : List TestParams :=
  let param1 : TestParams :=
    { n_epochs := some 6
      batch_size := some 4
      use_bias := some false
      callbacks := Option.none }
  let param2 : TestParams :=
    { n_epochs := some 4
      batch_size := some 6
      use_bias := some true
      callbacks := Option.none }
  let test_params := [param1, param2]
  if keras_available then
    test_params ++
      [{ n_epochs := some 2
         batch_size := Option.none
         use_bias := Option.none
         callbacks := some [Callback.lambdaCallback] }]
  else test_params

/-- Whether an optional value is set and lies in the closed range. -/
def opt_in_range (lo hi : Nat) : Option Nat → Bool
  | some v => decide (lo ≤ v) && decide (v ≤ hi)
  | Option.none => false

/-- Whether an optional value, when set, lies in the closed range. -/
def opt_in_range_or_absent (lo hi : Nat) : Option Nat → Bool
  | some v => decide (lo ≤ v) && decide (v ≤ hi)
  | Option.none => true

/-! Concrete sample objects used to instantiate theorems with hypotheses. -/

/-- An empty framework state. -/
def sample_tf : TfState := { globalSeed := RandomState.pyNone, effects := [] }

/-- A heap with one live callback-list object at address 0. -/
def sample_heap : Heap :=
  { store := fun i => if i = 0 then [Callback.named "cb"] else [], next := 1 }

/-- A concrete training array with `n_instances = 10`, `n_dimensions = 1`,
`series_length = 24`. -/
def sample_X : Arr3 := { dim1 := 10, dim2 := 1, dim3 := 24, data := fun _ _ _ => 0 }

/-- A concrete adapter with every optional hyperparameter left unset. -/
def reg0 : ResNetRegressor :=
  { n_epochs := 6
    callbacks := Option.none
    verbose := false
    loss := "mean_squared_error"
    metrics := Option.none
    batch_size := 4
    random_state := RandomState.pyNone
    activation := "linear"
    use_bias := false
    optimizer := Option.none
    history := Option.none
    _network := { random_state := RandomState.pyNone }
    optimizer_ := Option.none
    model_ := Option.none
    input_shape := Option.none
    callbacks_ := Option.none }

/-- A concrete adapter holding a callback-list reference (address 0),
a user optimizer and explicit metrics. -/
def reg_cb : ResNetRegressor :=
  { reg0 with
      callbacks := some 0
      metrics := some ["mae"]
      optimizer := some (Optimizer.custom 7)
      random_state := RandomState.pyInt 42
      _network := { random_state := RandomState.pyInt 42 } }

/-- A concrete adapter whose `random_state` is neither `None`, an int, nor a
`RandomState` object. -/
def reg_bad : ResNetRegressor :=
  { reg0 with
      random_state := RandomState.invalid "a-string"
      _network := { random_state := RandomState.invalid "a-string" } }

/-- C9: numpy's `transpose(0, 2, 1)` used by `_fit` is an involution: on an
array of shape `(n, d, m)` it yields shape `(n, m, d)`, and applying the same
swap again returns the original shape and the original element values
exactly. -/
theorem np_transpose_021_involutive (X : Arr3) :
    (np_transpose_021 X).dim1 = X.dim1 ∧
    (np_transpose_021 X).dim2 = X.dim3 ∧
    (np_transpose_021 X).dim3 = X.dim2 ∧
    np_transpose_021 (np_transpose_021 X) = X ∧
    (∀ i j k, (np_transpose_021 (np_transpose_021 X)).data i j k = X.data i j k) :=
  ⟨rfl, rfl, rfl, rfl, fun _ _ _ => rfl⟩

/-- C8: `build_model` seeds the framework's process-wide RNG with the
configured seed as its first framework side effect, before any other
framework call, and leaves the global seed set to the adapter's seed — so it
affects anything built afterward in the same process. -/
theorem build_model_seeds_global_rng (self : ResNetRegressor)
    (input_shape : Nat × Nat) (tf : TfState) :
    (self.build_model input_shape tf).tf.globalSeed = self.random_state ∧
    (self.build_model input_shape tf).tf.effects =
      tf.effects ++ [TfEffect.setSeed self.random_state,
        TfEffect.compileModel (self.build_model input_shape tf).model] ∧
    ((self.build_model input_shape tf).tf.effects.drop tf.effects.length).head? =
      some (TfEffect.setSeed self.random_state) := by
  refine ⟨rfl, by simp [ResNetRegressor.build_model], ?_⟩
  show ((tf.effects ++ [TfEffect.setSeed self.random_state] ++
      [TfEffect.compileModel (self.build_model input_shape tf).model]).drop
        tf.effects.length).head? = some (TfEffect.setSeed self.random_state)
  rw [List.append_assoc, List.drop_left]
  rfl

/-- C6: `__init__` fails with a dependency-missing error when the
deep-learning dependency is absent; otherwise it validates nothing, stores
every hyperparameter verbatim, instantiates the topology provider with the
same random seed, and builds no model (`model_`, `history`, `optimizer_`,
`input_shape`, `callbacks_` all unset). -/
theorem init_dependency_check_and_verbatim_storage
    (n_epochs : Nat) (callbacks : Option Nat) (verbose : Bool) (loss : String)
    (metrics : Option (List String)) (batch_size : Nat)
    (random_state : RandomState) (activation : String) (use_bias : Bool)
    (optimizer : Option Optimizer) :
    ResNetRegressor.init false n_epochs callbacks verbose loss metrics
        batch_size random_state activation use_bias optimizer =
      Except.error "tensorflow is required for deep learning functionality" ∧
    ResNetRegressor.init true n_epochs callbacks verbose loss metrics
        batch_size random_state activation use_bias optimizer =
      Except.ok
        { n_epochs := n_epochs
          callbacks := callbacks
          verbose := verbose
          loss := loss
          metrics := metrics
          batch_size := batch_size
          random_state := random_state
          activation := activation
          use_bias := use_bias
          optimizer := optimizer
          history := Option.none
          _network := { random_state := random_state }
          optimizer_ := Option.none
          model_ := Option.none
          input_shape := Option.none
          callbacks_ := Option.none } :=
  ⟨rfl, rfl⟩

/-- C2: `build_model` resolves the optimizer to a default
`Adam(learning_rate=0.01)` when none was configured, and to the configured
optimizer object verbatim otherwise; the resolved optimizer is both stored in
`optimizer_` and the one the model is compiled with. -/
theorem build_model_optimizer_resolution (self : ResNetRegressor)
    (input_shape : Nat × Nat) (tf : TfState) :
    (self.optimizer = Option.none →
        (self.build_model input_shape tf).model.optimizer =
          Optimizer.adam (1 / 100) ∧
        (self.build_model input_shape tf).regressor.optimizer_ =
          some (Optimizer.adam (1 / 100))) ∧
    (∀ o : Optimizer, self.optimizer = some o →
        (self.build_model input_shape tf).model.optimizer = o ∧
        (self.build_model input_shape tf).regressor.optimizer_ = some o) := by
  constructor
  · intro h
    simp [ResNetRegressor.build_model, h]
  · intro o h
    simp [ResNetRegressor.build_model, h]

/-- Witness for C2: on `reg0` (no optimizer configured) the compiled
optimizer is `Adam(learning_rate=0.01)`. -/
theorem build_model_optimizer_resolution_witness :
    reg0.optimizer = Option.none ∧
    (reg0.build_model (24, 1) sample_tf).model.optimizer =
      Optimizer.adam (1 / 100) ∧
    (reg0.build_model (24, 1) sample_tf).regressor.optimizer_ =
      some (Optimizer.adam (1 / 100)) :=
  ⟨rfl,
   ((build_model_optimizer_resolution reg0 (24, 1) sample_tf).1 rfl).1,
   ((build_model_optimizer_resolution reg0 (24, 1) sample_tf).1 rfl).2⟩

/-- C3: `build_model` resolves the metrics to the single-element list
`["mean_squared_error"]` when none was configured, and to the configured list
unchanged otherwise; the resolved list is the one the model is compiled
with. -/
theorem build_model_metrics_resolution (self : ResNetRegressor)
    (input_shape : Nat × Nat) (tf : TfState) :
    (self.metrics = Option.none →
        (self.build_model input_shape tf).model.metrics =
          ["mean_squared_error"]) ∧
    (∀ ms : List String, self.metrics = some ms →
        (self.build_model input_shape tf).model.metrics = ms) := by
  constructor
  · intro h
    simp [ResNetRegressor.build_model, h]
  · intro ms h
    simp [ResNetRegressor.build_model, h]

/-- Witness for C3: on `reg0` (no metrics configured) the compiled metrics
list is exactly `["mean_squared_error"]`; on `reg_cb` the configured list
`["mae"]` is used unchanged. -/
theorem build_model_metrics_resolution_witness :
    reg0.metrics = Option.none ∧
    (reg0.build_model (24, 1) sample_tf).model.metrics =
      ["mean_squared_error"] ∧
    reg_cb.metrics = some ["mae"] ∧
    (reg_cb.build_model (24, 1) sample_tf).model.metrics = ["mae"] :=
  ⟨rfl,
   (build_model_metrics_resolution reg0 (24, 1) sample_tf).1 rfl,
   rfl,
   (build_model_metrics_resolution reg_cb (24, 1) sample_tf).2 ["mae"] rfl⟩

/-- C4: `build_model (m, d)` appends exactly one `Dense` layer of width 1
with the configured activation and bias flag, consuming the topology
provider's output tensor; the model's input tensor is the `(m, d)` input
placeholder, so the per-instance input shape is `(m, d)` and the output
shape is `(1,)`. -/
theorem build_model_output_head (self : ResNetRegressor) (m d : Nat)
    (tf : TfState) :
    (self.build_model (m, d) tf).model.outputs =
      Tensor.dense 1 self.activation self.use_bias
        (self._network.build_network (m, d)).2 ∧
    (self.build_model (m, d) tf).model.inputs = Tensor.input (m, d) ∧
    Tensor.tensor_shape (self.build_model (m, d) tf).model.inputs =
      some [m, d] ∧
    Tensor.tensor_shape (self.build_model (m, d) tf).model.outputs =
      some [1] :=
  ⟨rfl, rfl, rfl, rfl⟩

/-- C1: on a 3-d array of shape `(n, d, m)`, `_fit` transposes the last two
axes, records the per-instance input shape `(m, d)` (series length first),
and builds the compiled model whose input tensor has exactly that transposed
shape — never the original `(d, m)` layout (whenever the two differ). -/
theorem fit_transposes_and_builds_at_transposed_shape
    (self : ResNetRegressor) (X : Arr3) (y : List ℚ) (tf : TfState)
    (heap : Heap) (h : check_random_state self.random_state = Except.ok ()) :
    ∃ r : FitResult, self._fit X y tf heap = Except.ok r ∧
      r.regressor.input_shape = some (X.dim3, X.dim2) ∧
      (∃ mdl : CompiledModel, r.regressor.model_ = some mdl ∧
        mdl.inputs = Tensor.input (X.dim3, X.dim2) ∧
        Tensor.tensor_shape mdl.inputs = some [X.dim3, X.dim2]) ∧
      (X.dim2 ≠ X.dim3 → r.regressor.input_shape ≠ some (X.dim2, X.dim3)) := by
  unfold ResNetRegressor._fit
  rw [h]
  refine ⟨_, rfl, rfl, ⟨_, rfl, rfl, rfl⟩, fun hne hcontra => ?_⟩
  have hc2 : some (X.dim3, X.dim2) = some (X.dim2, X.dim3) := hcontra
  injection hc2 with h3
  exact hne (congrArg Prod.snd h3)

/-- Witness for C1: fitting `reg0` on a `(10, 1, 24)` array records input
shape `(24, 1)` and builds the model at `(24, 1)`. -/
theorem fit_transposes_witness :
    check_random_state reg0.random_state = Except.ok () ∧
    (∃ r : FitResult, reg0._fit sample_X [] sample_tf sample_heap = Except.ok r ∧
      r.regressor.input_shape = some (sample_X.dim3, sample_X.dim2) ∧
      (∃ mdl : CompiledModel, r.regressor.model_ = some mdl ∧
        mdl.inputs = Tensor.input (sample_X.dim3, sample_X.dim2) ∧
        Tensor.tensor_shape mdl.inputs = some [sample_X.dim3, sample_X.dim2]) ∧
      (sample_X.dim2 ≠ sample_X.dim3 →
        r.regressor.input_shape ≠ some (sample_X.dim2, sample_X.dim3))) :=
  ⟨rfl,
   fit_transposes_and_builds_at_transposed_shape reg0 sample_X [] sample_tf
     sample_heap rfl⟩

/-- C7: `_fit` deep-copies the configured callback list: the list object
passed to the training loop (and recorded in the history) lives at a fresh
address distinct from the caller's, holds equal contents at copy time, and a
later mutation through the caller's reference does not change the copied
list. -/
theorem fit_deep_copies_callbacks (self : ResNetRegressor) (X : Arr3)
    (y : List ℚ) (tf : TfState) (heap : Heap) (a : Nat)
    (hcb : self.callbacks = some a) (ha : a < heap.next)
    (h : check_random_state self.random_state = Except.ok ()) :
    ∃ r : FitResult, self._fit X y tf heap = Except.ok r ∧
      ∃ c : Nat, r.regressor.callbacks_ = some c ∧
        (∃ hist : History, r.regressor.history = some hist ∧
          hist.callbacks_addr = some c) ∧
        c ≠ a ∧
        r.heap.store c = heap.store a ∧
        (∀ v : List Callback, (r.heap.write a v).store c = heap.store a) := by
  obtain ⟨ne, cb, vb, ls, mt, bs, rs, ac, ub, op, hi, nw, o_, m_, is_, cb_⟩ := self
  dsimp only at hcb h
  subst hcb
  unfold ResNetRegressor._fit
  rw [h]
  refine ⟨_, rfl, heap.next, rfl, ⟨_, rfl, rfl⟩,
    (Nat.ne_of_lt ha).symm, ?_, ?_⟩
  · show (if heap.next = heap.next then heap.store a else heap.store heap.next) =
      heap.store a
    simp
  · intro v
    show (Heap.write ⟨fun i => if i = heap.next then heap.store a else heap.store i,
        heap.next + 1⟩ a v).store heap.next = heap.store a
    have hne : heap.next ≠ a := (Nat.ne_of_lt ha).symm
    simp [Heap.write, hne]

/-- Witness for C7: fitting `reg_cb` (whose callback list lives at address 0
of `sample_heap`) passes a copy at a different address. -/
theorem fit_deep_copies_callbacks_witness :
    reg_cb.callbacks = some 0 ∧ 0 < sample_heap.next ∧
    check_random_state reg_cb.random_state = Except.ok () ∧
    (∃ r : FitResult, reg_cb._fit sample_X [] sample_tf sample_heap = Except.ok r ∧
      ∃ c : Nat, r.regressor.callbacks_ = some c ∧
        (∃ hist : History, r.regressor.history = some hist ∧
          hist.callbacks_addr = some c) ∧
        c ≠ 0 ∧
        r.heap.store c = sample_heap.store 0 ∧
        (∀ v : List Callback, (r.heap.write 0 v).store c = sample_heap.store 0)) :=
  ⟨rfl, Nat.zero_lt_one,
   rfl,
   fit_deep_copies_callbacks reg_cb sample_X [] sample_tf sample_heap 0 rfl
     Nat.zero_lt_one rfl⟩

/-- C10: `_fit` runs `check_random_state` before building the model: a
`random_state` that is neither `None`, an integer, nor a `RandomState` object
makes `_fit` raise sklearn's `ValueError` — the call returns no `FitResult`,
so no model is built, no training occurs, and the caller's adapter, framework
state and heap are left as they were. -/
theorem fit_rejects_invalid_random_state (self : ResNetRegressor) (X : Arr3)
    (y : List ℚ) (tf : TfState) (heap : Heap) (desc : String)
    (h : self.random_state = RandomState.invalid desc) :
    self._fit X y tf heap =
      Except.error
        (desc ++ " cannot be used to seed a numpy.random.RandomState instance") := by
  unfold ResNetRegressor._fit
  rw [h]
  rfl

/-- Witness for C10: `reg_bad` has an invalid random state and its `_fit`
raises. -/
theorem fit_rejects_invalid_random_state_witness :
    reg_bad.random_state = RandomState.invalid "a-string" ∧
    reg_bad._fit sample_X [] sample_tf sample_heap =
      Except.error
        ("a-string" ++ " cannot be used to seed a numpy.random.RandomState instance") :=
  ⟨rfl,
   fit_rejects_invalid_random_state reg_bad sample_X [] sample_tf sample_heap
     "a-string" rfl⟩

/-- C5 counterexample: with the optional callback library present,
`get_test_params` returns a record (the callback record) whose epoch count is
in 2–6 but which configures no batch size at all — so it is false that every
record configures a batch size in the range 4–6. -/
theorem get_test_params_batch_size_cex :
    ∃ p ∈ get_test_params true,
      opt_in_range 2 6 p.n_epochs = true ∧
      p.batch_size = Option.none ∧
      opt_in_range 4 6 p.batch_size = false := by
  decide

/-- C5 amended: `get_test_params` returns 2 records without the optional
callback library and 3 with it; every record configures an epoch count in
2–6; every record that configures a batch size sets it in 4–6 (the callback
record leaves batch size unset); and a record carrying the no-op
`LambdaCallback` is present exactly when the library is. -/
theorem get_test_params_amended_ranges (k : Bool) :
    (get_test_params k).length = (if k then 3 else 2) ∧
    ((get_test_params k).all fun p =>
      opt_in_range 2 6 p.n_epochs &&
        opt_in_range_or_absent 4 6 p.batch_size) = true ∧
    ((get_test_params k).any fun p =>
      p.callbacks == some [Callback.lambdaCallback]) = k := by
  cases k <;> decide

end ResNetReg
